import Mathlib

/-!
Verification of the transport/protocol core of a RethinkDB python driver
against its natural-language specification.

The Lean definitions below are a shallow embedding of the python source:

* `packLE` / `unpackLE` / `readHeader` / `serializeFrame` embed the frame
  codec (`core/net/msg.py`, `Query.serialize`, and the fixed 12-byte header
  parse in `core/net/protocol.py`, `RdbProtocol.read_response`).

Bytes are modelled as `List Nat` with entries below 256.  Machine integers
are modelled as `Nat`/`Int` with explicit `% 2 ^ w` where the source's
`struct.pack`/`struct.unpack` calls wrap or reject values.
-/

/-- Little-endian packing of a natural number into `w` bytes,
as `struct.pack` produces for the `<Q` (w = 8) and `<L` (w = 4) formats. -/
def packLE : Nat → Nat → List Nat
  | 0, _ => []
  | w + 1, n => n % 256 :: packLE w (n / 256)

/-- Little-endian unsigned decoding of a byte list, as `struct.unpack`
reads the `<Q`/`<L`/`<q` formats (the signed reinterpretation for `<q`
is `toSigned64`). -/
def unpackLE (bs : List Nat) : Nat :=
  bs.foldr (fun b acc => b + 256 * acc) 0

/-- Reinterpret an unsigned 64-bit value as the signed value that python's
`struct.unpack("<q", _)` returns for the same eight bytes. -/
def toSigned64 (n : Nat) : Int :=
  if n < 2 ^ 63 then (n : Int) else (n : Int) - 2 ^ 64

/-- Embedding of `Query.serialize` (`core/net/msg.py` lines 50-62) restricted
to the framing layer: the body bytes are produced by the injected Reql
encoder (a collaborator outside the protocol core, spec section 6), so they
are taken here as an argument.  `struct.pack("<QL", token, len(body))`
raises `struct.error` when the token is outside the unsigned 64-bit range or
the body length is outside the unsigned 32-bit range; this is modelled by
returning `none`. -/
def serializeFrame (token : Nat) (body : List Nat) : Option (List Nat) :=
  if token < 2 ^ 64 ∧ body.length < 2 ^ 32 then
    some (packLE 8 token ++ packLE 4 body.length ++ body)
  else
    none

/-- Embedding of the fixed 12-byte header parse
`struct.unpack("<qL", header_buff)` in `RdbProtocol.read_response`
(`core/net/protocol.py` line 87): an 8-byte little-endian *signed* token
followed by a 4-byte little-endian unsigned body length.  `struct.unpack`
raises on a buffer whose size is not exactly 12, modelled by `none`. -/
def readHeader (buf : List Nat) : Option (Int × Nat) :=
  if buf.length = 12 then
    some (toSigned64 (unpackLE (buf.take 8)), unpackLE ((buf.drop 8).take 4))
  else
    none

/-- Decoded JSON values carried in a response's `r` array are opaque to the
protocol core (they come from the injected Reql decoder, a collaborator
outside the core per spec section 6); they are modelled as strings. -/
abbrev Datum := String

/-- Response type constant SUCCESS_ATOM. Modelled from the spec: the
generated protobuf module `ql2_pb2` referenced by the source is not among
the repository sources; the values are the ResponseType constants of the
RethinkDB wire protocol it encodes. -/
def rtSuccessAtom : Nat := 1

/-- Response type constant SUCCESS_SEQUENCE (see `rtSuccessAtom`). -/
def rtSuccessSeq : Nat := 2

/-- Response type constant SUCCESS_PARTIAL (see `rtSuccessAtom`). -/
def rtSuccessPart : Nat := 3

/-- Response type constant WAIT_COMPLETE (see `rtSuccessAtom`). -/
def rtWaitComplete : Nat := 4

/-- Response type constant SERVER_INFO (see `rtSuccessAtom`). -/
def rtServerInfo : Nat := 5

/-- Response type constant CLIENT_ERROR (see `rtSuccessAtom`). -/
def rtClientError : Nat := 16

/-- Response type constant COMPILE_ERROR (see `rtSuccessAtom`). -/
def rtCompileError : Nat := 17

/-- Response type constant RUNTIME_ERROR (see `rtSuccessAtom`). -/
def rtRuntimeError : Nat := 18

/-- Error type constant INTERNAL. Modelled from the spec: ErrorType
constants of the wire protocol's generated protobuf module (absent from the
sources), used by `Response.make_error` to pick the runtime error
subclass. -/
def etInternal : Nat := 1000000

/-- Error type constant RESOURCE_LIMIT (see `etInternal`). -/
def etResourceLimit : Nat := 2000000

/-- Error type constant QUERY_LOGIC (see `etInternal`). -/
def etQueryLogic : Nat := 3000000

/-- Error type constant NON_EXISTENCE (see `etInternal`). -/
def etNonExistence : Nat := 3100000

/-- Error type constant OP_FAILED (see `etInternal`). -/
def etOpFailed : Nat := 4100000

/-- Error type constant OP_INDETERMINATE (see `etInternal`). -/
def etOpIndeterminate : Nat := 4200000

/-- Error type constant USER (see `etInternal`). -/
def etUser : Nat := 5000000

/-- Error type constant PERMISSION_ERROR (see `etInternal`). -/
def etPermission : Nat := 6000000

/-- Query type constant START. Modelled from the spec: QueryType constants
of the generated protobuf module (absent from the sources). -/
def qtStart : Nat := 1

/-- Query type constant CONTINUE (see `qtStart`). -/
def qtContinue : Nat := 2

/-- Query type constant STOP (see `qtStart`). -/
def qtStop : Nat := 3

/-- Query type constant NOREPLY_WAIT (see `qtStart`). -/
def qtNoreplyWait : Nat := 4

/-- Query type constant SERVER_INFO (see `qtStart`). -/
def qtServerInfoQ : Nat := 5

/-- The typed error taxonomy of `core/errors.py`, restricted to the classes
the embedded operations construct.  Each constructor carries the message
(`data[0]` of the response, or a fixed text). -/
inductive ReqlErr
  | cursorEmpty
  | driverErr (msg : String)
  | serverCompileErr (msg : String)
  | internalErr (msg : String)
  | resourceLimitErr (msg : String)
  | queryLogicErr (msg : String)
  | nonExistenceErr (msg : String)
  | opFailedErr (msg : String)
  | opIndeterminateErr (msg : String)
  | userErr (msg : String)
  | permissionErr (msg : String)
  | runtimeErr (msg : String)
  | authErr (msg : String)
  deriving DecidableEq

/-- Exceptions the embedded python code can raise: builtin exceptions from
attribute/dict/list accesses and `struct` calls, plus `raised` for the
Reql-typed errors of `core/errors.py`. -/
inductive PyErr
  | keyError
  | attributeError
  | indexError
  | structError
  | valueError
  | binasciiError
  | raised (e : ReqlErr)
  deriving DecidableEq

/-- Embedding of `Query` (`core/net/msg.py` lines 32-48): the operation
type and the token.  The optional term payload and keyword options only
flow to the pluggable encoder and the error pretty-printer (collaborators
outside the protocol core), so they are not represented. -/
structure Query where
  qtype : Nat
  token : Int
  deriving DecidableEq

/-- Embedding of `Response` (`core/net/msg.py` lines 100-109): the decoded
body fields together with the token taken from the frame header. -/
structure Response where
  token : Int
  rtype : Nat
  data : List Datum
  backtrace : Option (List Nat) := none
  profile : Option Datum := none
  errorType : Option Nat := none
  responseNote : Option (List Nat) := none
  deriving DecidableEq

/-- The decoded JSON body of a response frame, fields `t`/`r`/`b`/`p`/`e`/`n`
as produced by the injected Reql decoder (`RdbProtocol.read_response`). -/
structure RespFields where
  t : Nat
  r : List Datum
  b : Option (List Nat) := none
  p : Option Datum := none
  e : Option Nat := none
  n : Option (List Nat) := none
  deriving DecidableEq

/-- `Response.__init__`: pair the token from the header with the decoded
body fields. -/
def mkResponse (token : Int) (f : RespFields) : Response :=
  { token := token, rtype := f.t, data := f.r, backtrace := f.b,
    profile := f.p, errorType := f.e, responseNote := f.n }

/-- `Response.is_sequential` (`core/net/msg.py` lines 114-119). -/
def Response.isSequential (resp : Response) : Bool :=
  resp.rtype == rtSuccessPart || resp.rtype == rtSuccessSeq

/-- `Response.is_success_atom`. -/
def Response.isSuccessAtom (resp : Response) : Bool :=
  resp.rtype == rtSuccessAtom

/-- The SUCCESS_PARTIAL type test of `core/net/msg.py` line 122. -/
def Response.isSuccessPart (resp : Response) : Bool :=
  resp.rtype == rtSuccessPart

/-- The SUCCESS_SEQUENCE type test of `core/net/msg.py` line 123. -/
def Response.isSuccessSeq (resp : Response) : Bool :=
  resp.rtype == rtSuccessSeq

/-- `Response.is_server_info`. -/
def Response.isServerInfo (resp : Response) : Bool :=
  resp.rtype == rtServerInfo

/-- `Response.is_wait_complete`. -/
def Response.isWaitComplete (resp : Response) : Bool :=
  resp.rtype == rtWaitComplete

/-- `Response.is_client_error`. -/
def Response.isClientError (resp : Response) : Bool :=
  resp.rtype == rtClientError

/-- `Response.is_compile_error`. -/
def Response.isCompileError (resp : Response) : Bool :=
  resp.rtype == rtCompileError

/-- `Response.is_runtime_error`. -/
def Response.isRuntimeError (resp : Response) : Bool :=
  resp.rtype == rtRuntimeError

/-- `self.data[0]` on a python list: raises IndexError when empty. -/
def listHead (l : List Datum) : Except PyErr Datum :=
  match l with
  | [] => .error .indexError
  | d :: _ => .ok d

/-- The runtime-error subtype dictionary lookup with default
`ReqlRuntimeError` in `Response.make_error` (`core/net/msg.py` lines
164-176); a missing `e` field also falls back to the default
(`dict.get(None, default)`). -/
def errTypeToReql (e : Option Nat) (msg : String) : ReqlErr :=
  match e with
  | some v =>
      if v = etInternal then .internalErr msg
      else if v = etResourceLimit then .resourceLimitErr msg
      else if v = etQueryLogic then .queryLogicErr msg
      else if v = etNonExistence then .nonExistenceErr msg
      else if v = etOpFailed then .opFailedErr msg
      else if v = etOpIndeterminate then .opIndeterminateErr msg
      else if v = etUser then .userErr msg
      else if v = etPermission then .permissionErr msg
      else .runtimeErr msg
  | none => .runtimeErr msg

/-- Embedding of `Response.make_error` (`core/net/msg.py` lines 152-180).
The query argument only feeds the error pretty-printer (term and
backtrace), which is outside the core. -/
def Response.makeError (resp : Response) (_q : Query) : Except PyErr ReqlErr :=
  if resp.isClientError then do
    let m ← listHead resp.data
    pure (.driverErr m)
  else if resp.isCompileError then do
    let m ← listHead resp.data
    pure (.serverCompileErr m)
  else if resp.isRuntimeError then do
    let m ← listHead resp.data
    pure (errTypeToReql resp.errorType m)
  else
    pure (.driverErr ("Unknown Response type " ++ toString resp.rtype
      ++ " encountered in a response."))

/-- The value `Response.get_data` returns: `data[0]`, the whole data array
(sequential responses), or python `None` (WAIT_COMPLETE). -/
inductive RValue
  | scalar (d : Datum)
  | batch (l : List Datum)
  | null
  deriving DecidableEq

/-- Embedding of `Response.get_data` (`core/net/msg.py` lines 132-150):
classify by response type; error-typed responses raise the typed error
built by `Response.makeError`. -/
def Response.getData (resp : Response) (q : Query) : Except PyErr RValue :=
  if resp.isSuccessAtom then do
    let d ← listHead resp.data
    pure (.scalar d)
  else if resp.isSequential then
    pure (.batch resp.data)
  else if resp.isServerInfo then do
    let d ← listHead resp.data
    pure (.scalar d)
  else if resp.isWaitComplete then
    pure .null
  else do
    let e ← resp.makeError q
    Except.error (.raised e)

/-- Embedding of the `Cursor` object state (`core/net/cursor.py`).  Python
attributes that the constructor does not assign do not exist until first
assignment; reading them raises AttributeError.  Such attributes are
modelled as `Option` fields whose `none` means "never assigned":
`__init__` (lines 75-85) assigns `ctx`, `query`, `items` and `completed`,
while the assignments of `outstanding_requests`, `threshold` and `error`
(lines 79-81) are commented out in the source; `threshold` is then always
assigned by `_extend_internal`, `error` only on an error response, and
`outstanding_requests` never. -/
structure Cursor where
  query : Query
  items : List Datum
  completed : Bool
  threshold : Option Nat := none
  outstanding : Option Int := none
  errorAttr : Option (Option ReqlErr) := none
  deriving DecidableEq

/-- Reading a python attribute: AttributeError when it was never
assigned. -/
def getAttr {α : Type} (a : Option α) : Except PyErr α :=
  match a with
  | none => .error .attributeError
  | some v => .ok v

/-- Embedding of `Cursor._extend_internal` (`core/net/cursor.py` lines
172-184). -/
def Cursor.extendInternal (c : Cursor) (res : Response) : Except PyErr Cursor :=
  let c := { c with threshold := some res.data.length }
  if c.completed then
    .ok c
  else if res.isSuccessPart then
    .ok { c with items := c.items ++ res.data }
  else if res.isSuccessSeq then
    .ok { c with items := c.items ++ res.data, completed := true }
  else do
    let e ← res.makeError c.query
    .ok { c with errorAttr := some (some e) }

/-- Embedding of `Cursor.__init__` (`core/net/cursor.py` lines 75-85): set
`items`/`completed` and apply `_extend_internal` to the first response. -/
def Cursor.init (q : Query) (firstResponse : Response) : Except PyErr Cursor :=
  Cursor.extendInternal { query := q, items := [], completed := false }
    firstResponse

/-- Embedding of `Cursor._maybe_fetch_batch` (`core/net/cursor.py` lines
194-201).  The boolean result records whether a CONTINUE was issued
(`self.ctx.resume(self)`).  The python condition evaluates left to right
with short-circuiting, reading `self.error`, then `self.threshold`, then
`self.outstanding_requests`; each read raises AttributeError when the
attribute was never assigned. -/
def Cursor.maybeFetchBatch (c : Cursor) : Except PyErr (Cursor × Bool) := do
  let err ← getAttr c.errorAttr
  match err with
  | none =>
      do
      let thr ← getAttr c.threshold
      if c.items.length < thr then do
        let out ← getAttr c.outstanding
        if out = 0 then
          .ok ({ c with outstanding := some (out + 1) }, true)
        else
          .ok (c, false)
      else
        .ok (c, false)
  | some _ => .ok (c, false)

/-- Embedding of `Cursor.extend` (`core/net/cursor.py` lines 165-170):
decrement `outstanding_requests`, run `_maybe_fetch_batch`, then
`_extend_internal`. -/
def Cursor.extend (c : Cursor) (res : Response) : Except PyErr (Cursor × Bool) := do
  let out ← getAttr c.outstanding
  let c := { c with outstanding := some (out - 1) }
  let (c, issued) ← c.maybeFetchBatch
  let c ← c.extendInternal res
  .ok (c, issued)

/-- Python dict lookup on an association list where later insertions
overwrite earlier ones: the last binding wins. -/
def dictGetLast {α : Type} (l : List (Int × α)) (t : Int) : Option α :=
  (l.reverse.find? (fun p => p.1 == t)).map Prod.snd

/-- Removing a key from a python dict (`dict.pop`). -/
def dictRemove {α : Type} (l : List (Int × α)) (t : Int) : List (Int × α) :=
  l.filter (fun p => p.1 != t)

/-- The response router's token tables (`RdbProtocol.__init__`,
`core/net/protocol.py` lines 66-67): the weak-value cursor cache and the
pending single-shot request map. -/
structure RouterState where
  waiting : List (Int × Query)
  cursors : List (Int × Cursor)
  deriving DecidableEq

/-- What one pass of `RdbProtocol.read_response` did with a decoded
response. -/
inductive Outcome
  | extended (issuedContinue : Bool)
  | startedCursor (c : Cursor)
  | resolvedValue (v : RValue)
  deriving DecidableEq

/-- Embedding of `RdbProtocol.read_response` (`core/net/protocol.py` lines
82-114).  The generator's two reads are the 12-byte header and the body;
the body's JSON decoding is the injected decoder (collaborator), so the
decoded fields are taken directly.  `self._waiting_respose.pop(token)` has
no default: a token absent from the pending map raises KeyError.  When a
cursor is cached for the token, `cursor.extend(response)` runs and nothing
else; when the response is sequential a new cursor is created and cached;
otherwise `user_data = response.get_data(...)` is computed — and then only
printed (line 114): the function returns `None` and the value is
discarded. -/
def readResponse (st : RouterState) (header : List Nat) (body : RespFields) :
    Except PyErr (RouterState × Outcome) :=
  match readHeader header with
  | none => .error .structError
  | some (token, _len) =>
    match dictGetLast st.waiting token with
    | none => .error .keyError
    | some processedQuery =>
      let st := { st with waiting := dictRemove st.waiting token }
      let response := mkResponse token body
      match dictGetLast st.cursors token with
      | some cursor =>
          do
          let (cursor, issued) ← cursor.extend response
          .ok ({ st with
                  cursors := dictRemove st.cursors token ++ [(token, cursor)] },
               .extended issued)
      | none =>
        if response.isSequential then
          do
          let userData ← Cursor.init processedQuery response
          .ok ({ st with cursors := st.cursors ++ [(token, userData)] },
               .startedCursor userData)
        else
          do
          let userData ← response.getData processedQuery
          .ok (st, .resolvedValue userData)

/-- The bytes a reply arrives as: the 12-byte frame header plus the decoded
body fields (body JSON decoding is the collaborator decoder). -/
structure Wire where
  header : List Nat
  body : RespFields
  deriving DecidableEq

/-- State of `DefaultTransport` (`net/default_net/transport.py`): the
closing flag, whether the socket client is open, and the protocol's router
tables. -/
structure TransportState where
  closing : Bool
  clientOpen : Bool
  router : RouterState
  deriving DecidableEq

/-- Embedding of `RdbProtocol.build_query` (`core/net/protocol.py` lines
75-80): serialize (the bytes are not needed here) and, unless noreply,
register the query in the pending map. -/
def buildQuery (st : RouterState) (q : Query) (noreply : Bool) : RouterState :=
  if noreply then st else { st with waiting := st.waiting ++ [(q.token, q)] }

/-- Embedding of `DefaultTransport.run_query`
(`net/default_net/transport.py` lines 109-135): build and send the query;
on the noreply path return python `None` immediately; otherwise drive
`read_response` over the reply frame.  The source has no `return`
statement after the read loop (line 128, which would return the response,
is commented out), so the caller receives `None` in every non-raising
case; this is the `none` in the result. -/
def runQuery (st : TransportState) (q : Query) (noreply : Bool) (wire : Wire) :
    Except PyErr (TransportState × Option RValue) :=
  let st := { st with router := buildQuery st.router q noreply }
  if noreply then
    .ok (st, none)
  else
    do
    let (router, _outcome) ← readResponse st.router wire.header wire.body
    .ok ({ st with router := router }, none)

/-- Embedding of `DefaultTransport.close` (`net/default_net/transport.py`
lines 94-107): set the closing flag, optionally run the NOREPLY_WAIT query
(reading its reply from the wire), close the socket client.  The loop that
would fail every cached cursor with "Connection is closed." (lines
100-104) is commented out in the source, so the router tables are not
touched beyond the NOREPLY_WAIT bookkeeping. -/
def transportClose (st : TransportState)
    (noreplyWaitQuery : Option (Query × Wire)) : Except PyErr TransportState :=
  let st := { st with closing := true }
  match noreplyWaitQuery with
  | some (q, wire) =>
      do
      let (st, _) ← runQuery st q false wire
      .ok { st with clientOpen := false }
  | none => .ok { st with clientOpen := false }

/-- Embedding of `Connection.close` (`core/net/connection.py` lines
117-131): a no-op when the transport is already closed, otherwise build the
optional NOREPLY_WAIT query and delegate to the transport's close.  (The
token generator reset afterwards lives in the absent `token.py` module and
has no effect on the router tables.) -/
def connectionClose (st : TransportState)
    (noreplyWaitQuery : Option (Query × Wire)) : Except PyErr TransportState :=
  if st.clientOpen = false then
    .ok st
  else
    transportClose st noreplyWaitQuery

/-- Modelled from the spec: section 7's taxonomy calls local/transport
faults "driver errors", realized in `core/errors.py` as `ReqlDriverError`
and its subclasses (such as `ReqlAuthError`); query-level failures are the
server/runtime error classes.  A raised exception is driver-level when it
is one of those driver classes. -/
def isDriverLevelError : PyErr → Bool
  | .raised (.driverErr _) => true
  | .raised (.authErr _) => true
  | _ => false

/-- The fixture cursor used by the close theorem: a cursor freshly created
from a SUCCESS_PARTIAL first batch `["a"]` on token 2 (its `error`
attribute was never assigned). -/
def cursorC2 : Cursor :=
  { query := { qtype := qtStart, token := 2 }, items := ["a"],
    completed := false, threshold := some 1 }

/-- A decoded handshake JSON message from the server
(`core/net/handshake.py`): the fields the V1_0 handshake reads.  A `none`
field is absent from the JSON object; `dict[...]` access on an absent field
raises KeyError, `dict.get` returns python `None`. -/
structure HsResponse where
  success : Option Bool := none
  error_code : Option Int := none
  error : Option String := none
  authentication : Option String := none
  minProtocolVersion : Option Int := none
  maxProtocolVersion : Option Int := none
  deriving DecidableEq

/-- Python truthiness of `json_response.get("success")`: only an actual
`true` passes the `if not ...` guard. -/
def truthyOptBool : Option Bool → Bool
  | some true => true
  | _ => false

/-- `d[key]` on a python dict field: KeyError when absent. -/
def getItem {α : Type} (a : Option α) : Except PyErr α :=
  match a with
  | none => .error .keyError
  | some v => .ok v

/-- Embedding of `HandshakeV1_0.__decode_json_response`
(`core/net/handshake.py` lines 172-186): on a falsy `success` field, raise
`ReqlAuthError` when `10 <= int(error_code) <= 20`, else `ReqlDriverError`,
with the `error` field as message; otherwise return the decoded response.
The JSON text decoding itself is the injected decoder (collaborator). -/
def decodeJsonResponse (resp : HsResponse) : Except PyErr HsResponse :=
  if truthyOptBool resp.success = false then
    do
    let code ← getItem resp.error_code
    if 10 ≤ code ∧ code ≤ 20 then
      do
      let msg ← getItem resp.error
      Except.error (.raised (.authErr msg))
    else
      do
      let msg ← getItem resp.error
      Except.error (.raised (.driverErr msg))
  else
    .ok resp

/-- Split a character list at every occurrence of `sep`, as python's
`bytes.split` does (adjacent separators produce empty pieces). -/
def splitOnChar (sep : Char) : List Char → List (List Char)
  | [] => [[]]
  | c :: rest =>
      let r := splitOnChar sep rest
      if c = sep then [] :: r
      else
        match r with
        | [] => [[c]]
        | h :: t => (c :: h) :: t

/-- Split a character list at the first occurrence of `=`, as python's
`split(b"=", 1)` does; `none` when there is no `=`. -/
def splitFirstEq : List Char → Option (List Char × List Char)
  | [] => none
  | c :: rest =>
      if c = '=' then some ([], rest)
      else (splitFirstEq rest).map (fun p => (c :: p.1, p.2))

/-- One `key=value` split of `HandshakeV1_0.__get_authentication_message`:
python's `auth.split(b"=", 1)` destructured into exactly two names, so an
entry without `=` raises ValueError. -/
def splitKeyValue (s : String) : Except PyErr (String × String) :=
  match splitFirstEq s.data with
  | none => .error .valueError
  | some (k, v) => .ok (String.mk k, String.mk v)

/-- Embedding of `HandshakeV1_0.__get_authentication_message`
(`core/net/handshake.py` lines 158-170): split the `authentication` field
on commas into `key=value` pairs (later duplicates overwrite earlier ones,
modelled by last-binding-wins lookup `dictGetLastStr`). -/
def getAuthenticationMessage (auth : String) : Except PyErr (List (String × String)) :=
  (splitOnChar ',' auth.data).map String.mk |>.mapM splitKeyValue

/-- `bytes.startswith`: the first string is a prefix of the second. -/
def startsWith (pre s : String) : Bool :=
  pre.data.isPrefixOf s.data

/-- Python dict lookup (string keys) where later insertions overwrite
earlier ones. -/
def dictGetLastStr (l : List (String × String)) (k : String) : Option String :=
  (l.reverse.find? (fun p => p.1 == k)).map Prod.snd

/-- The cryptographic and encoding primitives the handshake calls from
python's standard library: `hashlib.pbkdf2_hmac("sha256", ...)`,
`hmac.new(..., digestmod=hashlib.sha256).digest()`, `hashlib.sha256`,
`base64.standard_b64decode` (which can fail on bad input) and
`base64.standard_b64encode`.  They are external collaborators, abstracted
as function parameters. -/
structure CryptoPrims where
  pbkdf2HmacSha256 : String → List Nat → Int → List Nat
  hmacSha256 : List Nat → List Nat → List Nat
  sha256 : List Nat → List Nat
  b64decode : String → Option (List Nat)
  b64encode : List Nat → String

/-- ASCII bytes of a string (the handshake strings are all ASCII). -/
def strBytes (s : String) : List Nat :=
  s.data.map Char.toNat

/-- The `struct.pack("32B", *(l ^ r for ...))` xor of
`HandshakeV1_0.__prepare_auth_request` (`core/net/handshake.py` lines
270-279): `struct.unpack("32B", _)` raises unless each operand is exactly
32 bytes. -/
def pack32Xor (a b : List Nat) : Except PyErr (List Nat) :=
  if a.length = 32 ∧ b.length = 32 then
    .ok (List.zipWith (fun x y => x ^^^ y) a b)
  else
    .error .structError

/-- Mutable state of `HandshakeV1_0`: the escaped username, the password,
and the three fields `reset` clears (`core/net/handshake.py` lines
106-137).  The random nonce is fixed at `__initialize_connection` time from
`SystemRandom` (taken as given here). -/
structure HandshakeState where
  username : String
  password : String
  randomNonce : String
  firstClientMessage : String
  serverSignature : List Nat := []
  deriving DecidableEq

/-- The username escaping in `HandshakeV1_0.__init__` (line 117). -/
def escapeUsername (u : String) : String :=
  (u.replace "=" "=3D").replace "," "=2C"

/-- The `client-first-message-bare` built in
`HandshakeV1_0.__initialize_connection` (lines 198-201). -/
def mkFirstClientMessage (username nonce : String) : String :=
  "n=" ++ username ++ ",r=" ++ nonce

/-- The SCRAM computation of `HandshakeV1_0.__prepare_auth_request`
(`core/net/handshake.py` lines 252-279) after the nonce check: salted
password by PBKDF2, server signature, client key/signature and the xor
client proof.  Returns the server signature together with the proof (or
the struct error when a digest is not 32 bytes). -/
def computeScram (cp : CryptoPrims) (password : String) (salt : List Nat)
    (iterations : Int) (firstClientMessage firstServerMessage rNonce : String) :
    List Nat × Except PyErr (List Nat) :=
  let saltedPassword := cp.pbkdf2HmacSha256 password salt iterations
  let messageWithoutProof := "c=biws,r=" ++ rNonce
  let authMessage := strBytes
    (firstClientMessage ++ "," ++ firstServerMessage ++ "," ++ messageWithoutProof)
  let serverSignature := cp.hmacSha256
    (cp.hmacSha256 saltedPassword (strBytes "Server Key")) authMessage
  let clientKey := cp.hmacSha256 saltedPassword (strBytes "Client Key")
  let clientSignature := cp.hmacSha256 (cp.sha256 clientKey) authMessage
  (serverSignature, pack32Xor clientKey clientSignature)

/-- Embedding of `HandshakeV1_0.__prepare_auth_request`
(`core/net/handshake.py` lines 237-294): decode the server message, parse
its authentication fields, check that the server nonce extends the
client's random nonce (raising `ReqlAuthError("Invalid nonce from
server")` otherwise, before any proof is computed or sent), then compute
the client proof and build the authentication request (its JSON wrapping
is the injected encoder; the returned string is the authentication
payload). -/
def prepareAuthRequest (cp : CryptoPrims) (hs : HandshakeState)
    (resp : HsResponse) : Except PyErr (HandshakeState × String) := do
  let jsonResponse ← decodeJsonResponse resp
  let firstServerMessage ← getItem jsonResponse.authentication
  let authentication ← getAuthenticationMessage firstServerMessage
  let randomNonce ← getItem (dictGetLastStr authentication "r")
  if !(startsWith hs.randomNonce randomNonce) then
    Except.error (.raised (.authErr "Invalid nonce from server"))
  else
    do
    let sVal ← getItem (dictGetLastStr authentication "s")
    let salt ← match cp.b64decode sVal with
      | none => Except.error PyErr.binasciiError
      | some v => pure v
    let iVal ← getItem (dictGetLastStr authentication "i")
    let iterations ← match iVal.toInt? with
      | none => Except.error PyErr.valueError
      | some v => pure v
    let messageWithoutProof := "c=biws,r=" ++ randomNonce
    let scram := computeScram cp hs.password salt iterations
      hs.firstClientMessage firstServerMessage randomNonce
    let clientProof ← scram.2
    let authRequest := messageWithoutProof ++ ",p=" ++ cp.b64encode clientProof
    .ok ({ hs with serverSignature := scram.1 }, authRequest)

/-- `hmac.compare_digest`: constant-time in python, functionally byte
equality. -/
def compareDigest (a b : List Nat) : Bool :=
  a == b

/-- Embedding of `HandshakeV1_0.__read_auth_response`
(`core/net/handshake.py` lines 296-309): decode the final server message
and verify its `v` signature against the stored server signature with
`hmac.compare_digest`, raising `ReqlAuthError("Invalid server signature")`
on mismatch. -/
def readAuthResponse (cp : CryptoPrims) (hs : HandshakeState)
    (resp : HsResponse) : Except PyErr Unit := do
  let jsonResponse ← decodeJsonResponse resp
  let authField ← getItem jsonResponse.authentication
  let authentication ← getAuthenticationMessage authField
  let vVal ← getItem (dictGetLastStr authentication "v")
  let signature ← match cp.b64decode vVal with
    | none => Except.error PyErr.binasciiError
    | some v => pure v
  if !(compareDigest signature hs.serverSignature) then
    Except.error (.raised (.authErr "Invalid server signature"))
  else
    .ok ()

/-- Concrete collaborator primitives used by witnesses (the claims proved
about the handshake hold for every choice of primitives). -/
def dummyPrims : CryptoPrims :=
  { pbkdf2HmacSha256 := fun _ _ _ => List.replicate 32 0,
    hmacSha256 := fun _ _ => List.replicate 32 0,
    sha256 := fun _ => List.replicate 32 0,
    b64decode := fun _ => some [],
    b64encode := fun _ => "" }

/-- Parsed URL parts as python's `urllib.parse.urlparse` / `parse_qs`
(standard library, external to the repository) deliver them to
`ConnectionConfig.new`; `timeoutParam` is the first `timeout` query
parameter already passed through `int`. -/
structure UrlParts where
  username : Option String := none
  password : Option String := none
  hostname : Option String := none
  port : Option Nat := none
  path : String := ""
  timeoutParam : Option Int := none
  deriving DecidableEq

/-- Embedding of the frozen dataclass `ConnectionConfig`
(`core/net/conn_config.py` lines 36-46).  The ssl dict's optional
`ca_certs` trust-store path is `caCerts`; the pluggable JSON
encoder/decoder classes are collaborators and not represented. -/
structure ConnectionConfig where
  host : String
  port : Nat
  db : String
  user : String
  password : String
  timeout : Int
  caCerts : Option String
  deriving DecidableEq

/-- Python `a or default` for an optional string: `None` and the empty
string are falsy. -/
def orStr (a : Option String) (d : String) : String :=
  match a with
  | none => d
  | some s => if s = "" then d else s

/-- Embedding of `ConnectionConfig.new` (`core/net/conn_config.py` lines
48-85): apply the falsy-defaults for password and ssl, optionally override
fields from a connection URL, and build the config.  The python function
performs no validation of any field and cannot fail (it is total). -/
def connectionConfigNew (host : String := "localhost") (port : Nat := 28015)
    (db : String := "test") (user : String := "admin")
    (password : Option String := none) (timeout : Int := 20)
    (ssl : Option String := none) (url : Option UrlParts := none) :
    ConnectionConfig :=
  let password := orStr password ""
  match url with
  | some u =>
      let user := orStr u.username user
      let password := orStr u.password password
      let host := orStr u.hostname host
      let port := match u.port with
        | none => port
        | some p => if p = 0 then port else p
      let db :=
        let d := u.path.replace "/" ""
        if d = "" then "test" else d
      let timeout := match u.timeoutParam with
        | none => 20
        | some t => t
      { host := host, port := port, db := db, user := user,
        password := password, timeout := timeout, caCerts := ssl }
  | none =>
      { host := host, port := port, db := db, user := user,
        password := password, timeout := timeout, caCerts := ssl }

theorem packLE_length (w n : Nat) : (packLE w n).length = w := by
  induction w generalizing n with
  | zero => rfl
  | succ w ih => simp [packLE, ih]

theorem unpackLE_packLE (w n : Nat) : unpackLE (packLE w n) = n % 256 ^ w := by
  induction w generalizing n with
  | zero => simp [packLE, unpackLE, Nat.mod_one]
  | succ w ih =>
      simp only [packLE, unpackLE, List.foldr] at *
      rw [ih (n / 256), Nat.pow_succ', Nat.mod_mul]

theorem take_append_length {α : Type} (l₁ l₂ : List α) (n : Nat)
    (h : l₁.length = n) : (l₁ ++ l₂).take n = l₁ := by
  subst h
  exact List.take_left l₁ l₂

theorem drop_append_length {α : Type} (l₁ l₂ : List α) (n : Nat)
    (h : l₁.length = n) : (l₁ ++ l₂).drop n = l₂ := by
  subst h
  exact List.drop_left l₁ l₂

/-- Fixed-width little-endian round trip: decoding the `w`-byte packing of
`n < 256 ^ w` recovers `n`. -/
theorem unpackLE_packLE_of_lt (w n : Nat) (h : n < 256 ^ w) :
    unpackLE (packLE w n) = n := by
  rw [unpackLE_packLE, Nat.mod_eq_of_lt h]

/-- C4 (counterexample): the claim quantifies over *every* request, but the
token domain is the full unsigned 64-bit range (`struct.pack("<Q", ...)`),
while the response side reads the token back signed (`struct.unpack("<qL",
...)`).  At token `2 ^ 63` with an empty body, serialization succeeds and
the header parse returns token `-(2 ^ 63)`, not `2 ^ 63`: the token is not
recovered. -/
theorem frame_roundtrip_fails_high_token :
    serializeFrame (2 ^ 63) [] = some (packLE 8 (2 ^ 63) ++ packLE 4 0 ++ []) ∧
    readHeader ((packLE 8 (2 ^ 63) ++ packLE 4 0 ++ []).take 12) =
      some (-(2 ^ 63), 0) ∧
    (-(2 ^ 63) : Int) ≠ ((2 ^ 63 : Nat) : Int) := by
  refine ⟨by decide, by decide, by decide⟩

/-- C4 (amended): for every request whose token lies in the signed 64-bit
range `[0, 2 ^ 63)` and whose body is shorter than `2 ^ 32` bytes,
serializing and then parsing the frame's fixed 12-byte header recovers the
same token and a body length equal to the number of body bytes following
the header (and those trailing bytes are exactly the body). -/
theorem frame_roundtrip_signed_range (token : Nat) (body : List Nat)
    (htok : token < 2 ^ 63) (hlen : body.length < 2 ^ 32) :
    serializeFrame token body =
      some (packLE 8 token ++ packLE 4 body.length ++ body) ∧
    readHeader ((packLE 8 token ++ packLE 4 body.length ++ body).take 12) =
      some ((token : Int), body.length) ∧
    (packLE 8 token ++ packLE 4 body.length ++ body).drop 12 = body := by
  have htok64 : token < 2 ^ 64 := lt_trans htok (by norm_num)
  have h8 : (packLE 8 token).length = 8 := packLE_length 8 token
  have h4 : (packLE 4 body.length).length = 4 := packLE_length 4 body.length
  have hhead : (packLE 8 token ++ packLE 4 body.length).length = 12 := by
    simp [h8, h4]
  have htake : (packLE 8 token ++ packLE 4 body.length ++ body).take 12 =
      packLE 8 token ++ packLE 4 body.length := by
    rw [List.append_assoc]
    exact take_append_length _ _ 12 hhead
  refine ⟨?_, ?_, ?_⟩
  · simp only [serializeFrame, if_pos (And.intro htok64 hlen)]
  · rw [htake]
    have htake8 : (packLE 8 token ++ packLE 4 body.length).take 8 =
        packLE 8 token := take_append_length _ _ 8 h8
    have hdrop8 : (packLE 8 token ++ packLE 4 body.length).drop 8 =
        packLE 4 body.length := drop_append_length _ _ 8 h8
    have hb : body.length < 256 ^ 4 := by
      have : (256 : Nat) ^ 4 = 2 ^ 32 := by norm_num
      omega
    have ht : token < 256 ^ 8 := by
      have h63 : (2 : Nat) ^ 63 < 256 ^ 8 := by norm_num
      omega
    simp only [readHeader, hhead, htake8, hdrop8, if_pos]
    rw [unpackLE_packLE_of_lt 8 token ht]
    rw [List.take_of_length_le (le_of_eq h4)]
    rw [unpackLE_packLE_of_lt 4 body.length hb]
    simp only [toSigned64, if_pos htok]
  · rw [List.append_assoc]
    exact drop_append_length _ _ 12 hhead

/-- C4 amended theorem instantiated at token 7 and body `[1, 2, 3]`. -/
theorem frame_roundtrip_signed_range_witness :
    serializeFrame 7 [1, 2, 3] =
      some (packLE 8 7 ++ packLE 4 [1, 2, 3].length ++ [1, 2, 3]) ∧
    readHeader ((packLE 8 7 ++ packLE 4 [1, 2, 3].length ++ [1, 2, 3]).take 12) =
      some ((7 : Int), [1, 2, 3].length) ∧
    (packLE 8 7 ++ packLE 4 [1, 2, 3].length ++ [1, 2, 3]).drop 12 = [1, 2, 3] :=
  frame_roundtrip_signed_range 7 [1, 2, 3] (by decide) (by decide)

/-- C1 (code evaluated at the failing input): closing a connection that has
one pending single-shot request (token 1) and one open cursor (token 2)
sets the closing flag and closes the socket, but leaves the pending-request
map and the cursor cache exactly as they were: the pending request is never
resolved and the cursor's `error` attribute is still unassigned, so no
caller waiting on either ever observes a "connection closed" error.  (The
loop delivering that error is commented out at transport.py lines
100-104.) -/
theorem close_leaves_pending_unresolved :
    connectionClose
        { closing := false, clientOpen := true,
          router := { waiting := [(1, { qtype := qtStart, token := 1 })],
                      cursors := [(2, cursorC2)] } } none =
      .ok { closing := true, clientOpen := false,
            router := { waiting := [(1, { qtype := qtStart, token := 1 })],
                        cursors := [(2, cursorC2)] } } ∧
    cursorC2.errorAttr = none := by
  exact ⟨rfl, rfl⟩

/-- C2 (counterexample): a decoded response for token 5 when neither a
cursor nor a pending request is registered makes `read_response` raise a
bare `KeyError` from `self._waiting_respose.pop(token)` — a builtin lookup
exception, not a driver-level (`ReqlDriverError`) error as the claim
states. -/
theorem unknown_token_keyerror_not_driver_error :
    readResponse { waiting := [], cursors := [] } (packLE 8 5 ++ packLE 4 0)
        { t := rtSuccessAtom, r := [] } = .error .keyError ∧
    isDriverLevelError .keyError = false := by
  exact ⟨rfl, rfl⟩

/-- C2 (amended): for every router state and decoded frame whose token has
no pending request registered, `read_response` fails with a `KeyError` —
fatal to the read, but a plain lookup exception rather than a driver-level
error (and this happens even before the cursor cache is consulted). -/
theorem unknown_token_raises_keyerror (st : RouterState) (header : List Nat)
    (body : RespFields) (token : Int) (len : Nat)
    (hh : readHeader header = some (token, len))
    (hnone : dictGetLast st.waiting token = none) :
    readResponse st header body = .error .keyError := by
  simp [readResponse, hh, hnone]

/-- C2 amended theorem at the concrete input of the counterexample. -/
theorem unknown_token_raises_keyerror_witness :
    readResponse { waiting := [], cursors := [] } (packLE 8 5 ++ packLE 4 0)
        { t := rtSuccessAtom, r := [] } = .error .keyError :=
  unknown_token_raises_keyerror { waiting := [], cursors := [] }
    (packLE 8 5 ++ packLE 4 0) { t := rtSuccessAtom, r := [] } 5 0
    (by decide) (by decide)

/-- C3 (code evaluated at the failing input): a cursor created from a
SUCCESS_PARTIAL first batch `["a"]` has no `outstanding_requests` attribute
at all — the initialization at cursor.py line 79 is commented out — so the
very first `extend` (here with a second batch `["b"]`) raises
AttributeError at `self.outstanding_requests -= 1` (cursor.py line 166).
The claimed 0-or-1 counter invariant and CONTINUE-iff-threshold rule cannot
hold: the counter never exists and `_maybe_fetch_batch` is never reached
without raising. -/
theorem cursor_extend_attribute_error_c3 :
    Cursor.init { qtype := qtStart, token := 1 }
        (mkResponse 1 { t := rtSuccessPart, r := ["a"] }) =
      .ok { query := { qtype := qtStart, token := 1 }, items := ["a"],
            completed := false, threshold := some 1 } ∧
    Cursor.extend
        { query := { qtype := qtStart, token := 1 }, items := ["a"],
          completed := false, threshold := some 1 }
        (mkResponse 1 { t := rtSuccessPart, r := ["b"] }) =
      .error .attributeError := by
  exact ⟨rfl, rfl⟩

/-- C5 (code evaluated at the failing input): for a pending single-shot
request (token 1) answered by SUCCESS_ATOM with data `["v"]`, the router
classifies the response and computes `data[0] = "v"` — but the value is
only printed and discarded (protocol.py line 114), and `run_query` returns
python `None` to the caller (the return at transport.py line 128 is
commented out): the request is never resolved with the value. -/
theorem atom_value_computed_but_dropped :
    readResponse
        { waiting := [(1, { qtype := qtStart, token := 1 })], cursors := [] }
        (packLE 8 1 ++ packLE 4 9) { t := rtSuccessAtom, r := ["v"] } =
      .ok ({ waiting := [], cursors := [] }, .resolvedValue (.scalar "v")) ∧
    runQuery
        { closing := false, clientOpen := true,
          router := { waiting := [], cursors := [] } }
        { qtype := qtStart, token := 1 } false
        { header := packLE 8 1 ++ packLE 4 9,
          body := { t := rtSuccessAtom, r := ["v"] } } =
      .ok ({ closing := false, clientOpen := true,
             router := { waiting := [], cursors := [] } }, none) := by
  exact ⟨rfl, rfl⟩

/-- C6 (code evaluated at the failing input): `extend` with a
SUCCESS_SEQUENCE response on a cursor holding `["x", "y"]` raises
AttributeError (the `outstanding_requests` decrement reads an attribute
that is never assigned) before `_extend_internal` runs: the items are not
appended and `completed` is not set, contrary to the claim. -/
theorem cursor_extend_crashes_before_append :
    Cursor.init { qtype := qtStart, token := 2 }
        (mkResponse 2 { t := rtSuccessPart, r := ["x", "y"] }) =
      .ok { query := { qtype := qtStart, token := 2 }, items := ["x", "y"],
            completed := false, threshold := some 2 } ∧
    Cursor.extend
        { query := { qtype := qtStart, token := 2 }, items := ["x", "y"],
          completed := false, threshold := some 2 }
        (mkResponse 2 { t := rtSuccessSeq, r := ["z"] }) =
      .error .attributeError := by
  exact ⟨rfl, rfl⟩

/-- C7: whenever the server's authentication message decodes successfully
but carries a nonce that does not extend (start with) the client's random
nonce, `__prepare_auth_request` fails with the authentication error
"Invalid nonce from server" — no client proof is computed or sent (for any
choice of the crypto primitives). -/
theorem bad_nonce_auth_error (cp : CryptoPrims) (hs : HandshakeState)
    (resp : HsResponse) (authStr : String) (fields : List (String × String))
    (serverNonce : String)
    (hsuccess : truthyOptBool resp.success = true)
    (hauth : resp.authentication = some authStr)
    (hfields : getAuthenticationMessage authStr = .ok fields)
    (hr : dictGetLastStr fields "r" = some serverNonce)
    (hpre : startsWith hs.randomNonce serverNonce = false) :
    prepareAuthRequest cp hs resp =
      .error (.raised (.authErr "Invalid nonce from server")) := by
  simp [prepareAuthRequest, decodeJsonResponse, hsuccess, hauth, hfields,
    hr, hpre, getItem, bind, Except.bind]

/-- C7 at a concrete input: client nonce "abc", server nonce "xyz". -/
theorem bad_nonce_auth_error_witness :
    prepareAuthRequest dummyPrims
      { username := "admin", password := "", randomNonce := "abc",
        firstClientMessage := "n=admin,r=abc" }
      { success := some true, authentication := some "r=xyz,s=AAAA,i=4096" } =
      .error (.raised (.authErr "Invalid nonce from server")) :=
  bad_nonce_auth_error dummyPrims
    { username := "admin", password := "", randomNonce := "abc",
      firstClientMessage := "n=admin,r=abc" }
    { success := some true, authentication := some "r=xyz,s=AAAA,i=4096" }
    "r=xyz,s=AAAA,i=4096" [("r", "xyz"), ("s", "AAAA"), ("i", "4096")] "xyz"
    rfl rfl rfl rfl rfl

/-- C8: for a fixed password, salt, iteration count, nonce and message
material, the SCRAM computation (client proof and server signature) is a
pure function of those inputs — two runs agree — and the accept/reject
decision of `__read_auth_response` is determined by the received signature
alone: it accepts exactly when the decoded `v` value equals the stored
server signature. -/
theorem handshake_deterministic_and_signature_decision
    (cp : CryptoPrims) (password : String) (salt : List Nat) (iterations : Int)
    (fcm fsm rNonce : String) (hs : HandshakeState) (resp : HsResponse)
    (authStr : String) (fields : List (String × String)) (vVal : String)
    (sig : List Nat)
    (hsuccess : truthyOptBool resp.success = true)
    (hauth : resp.authentication = some authStr)
    (hfields : getAuthenticationMessage authStr = .ok fields)
    (hv : dictGetLastStr fields "v" = some vVal)
    (hdec : cp.b64decode vVal = some sig) :
    computeScram cp password salt iterations fcm fsm rNonce =
      computeScram cp password salt iterations fcm fsm rNonce ∧
    (readAuthResponse cp hs resp = .ok () ↔ sig = hs.serverSignature) := by
  refine ⟨rfl, ?_⟩
  by_cases h : sig = hs.serverSignature
  · simp [readAuthResponse, decodeJsonResponse, hsuccess, hauth, hfields,
      hv, hdec, getItem, compareDigest, h, bind, Except.bind, pure, Except.pure]
  · simp [readAuthResponse, decodeJsonResponse, hsuccess, hauth, hfields,
      hv, hdec, getItem, compareDigest, h, bind, Except.bind, pure, Except.pure]

/-- C8 at a concrete input: matching signatures, so the handshake
accepts. -/
theorem handshake_deterministic_witness :
    computeScram dummyPrims "" [] 4096 "n=admin,r=abc" "r=abcx,s=AA,i=4096"
        "abcx" =
      computeScram dummyPrims "" [] 4096 "n=admin,r=abc" "r=abcx,s=AA,i=4096"
        "abcx" ∧
    (readAuthResponse dummyPrims
        { username := "admin", password := "", randomNonce := "abc",
          firstClientMessage := "n=admin,r=abc", serverSignature := [] }
        { success := some true, authentication := some "v=QUJD" } =
        .ok () ↔
      ([] : List Nat) =
        ({ username := "admin", password := "", randomNonce := "abc",
           firstClientMessage := "n=admin,r=abc",
           serverSignature := [] : HandshakeState }).serverSignature) :=
  handshake_deterministic_and_signature_decision dummyPrims "" [] 4096
    "n=admin,r=abc" "r=abcx,s=AA,i=4096" "abcx"
    { username := "admin", password := "", randomNonce := "abc",
      firstClientMessage := "n=admin,r=abc", serverSignature := [] }
    { success := some true, authentication := some "v=QUJD" }
    "v=QUJD" [("v", "QUJD")] "QUJD" []
    rfl rfl rfl rfl rfl

/-- C9 (counterexample): `ConnectionConfig.new` performs no validation:
called with the non-positive timeout `-5` and a certificate path no file
system could contain, it succeeds and returns a config holding exactly
those values — nothing is rejected at construction time (socket I/O only
happens later, in `new_connection`'s `conn.reconnect()`). -/
theorem config_accepts_invalid_timeout_and_cert :
    connectionConfigNew "localhost" 28015 "test" "admin" none (-5)
        (some "/no/such/cert.pem") none =
      { host := "localhost", port := 28015, db := "test", user := "admin",
        password := "", timeout := -5, caCerts := some "/no/such/cert.pem" } := by
  rfl

/-- C9 (amended): construction collects the parameters with falsy-defaults
applied and no validation: for every non-positive timeout and every
trust-store path, `ConnectionConfig.new` returns a config carrying them
unchanged; errors can only surface later when the socket/TLS layer uses
them. -/
theorem config_no_validation_passthrough (timeout : Int) (path : String)
    (_h : timeout ≤ 0) :
    (connectionConfigNew "localhost" 28015 "test" "admin" none timeout
        (some path) none).timeout = timeout ∧
    (connectionConfigNew "localhost" 28015 "test" "admin" none timeout
        (some path) none).caCerts = some path := by
  exact ⟨rfl, rfl⟩

/-- C9 amended theorem at timeout `-7` and a non-existent path. -/
theorem config_no_validation_passthrough_witness :
    (connectionConfigNew "localhost" 28015 "test" "admin" none (-7)
        (some "/missing/ca.pem") none).timeout = -7 ∧
    (connectionConfigNew "localhost" 28015 "test" "admin" none (-7)
        (some "/missing/ca.pem") none).caCerts = some "/missing/ca.pem" :=
  config_no_validation_passthrough (-7) "/missing/ca.pem" (by decide)

/-- C10: for every handshake server response whose `success` field is
falsy and which carries an `error_code` and an `error` message,
`__decode_json_response` raises the authentication error exactly when
`10 <= error_code <= 20`, and the driver error for every other code. -/
theorem handshake_error_code_classification (resp : HsResponse)
    (code : Int) (msg : String)
    (hfalsy : truthyOptBool resp.success = false)
    (hcode : resp.error_code = some code)
    (hmsg : resp.error = some msg) :
    (decodeJsonResponse resp = .error (.raised (.authErr msg)) ↔
      10 ≤ code ∧ code ≤ 20) ∧
    (¬ (10 ≤ code ∧ code ≤ 20) →
      decodeJsonResponse resp = .error (.raised (.driverErr msg))) := by
  by_cases h : 10 ≤ code ∧ code ≤ 20
  · simp [decodeJsonResponse, hfalsy, hcode, hmsg, getItem, h, bind, Except.bind]
  · simp [decodeJsonResponse, hfalsy, hcode, hmsg, getItem, h, bind, Except.bind]

/-- C10 at a concrete input: error code 15 is classified as an
authentication failure. -/
theorem handshake_error_code_classification_witness :
    (decodeJsonResponse
        { success := some false, error_code := some 15,
          error := some "auth failed" } =
        .error (.raised (.authErr "auth failed")) ↔
      10 ≤ (15 : Int) ∧ (15 : Int) ≤ 20) ∧
    (¬ (10 ≤ (15 : Int) ∧ (15 : Int) ≤ 20) →
      decodeJsonResponse
          { success := some false, error_code := some 15,
            error := some "auth failed" } =
        .error (.raised (.driverErr "auth failed"))) :=
  handshake_error_code_classification
    { success := some false, error_code := some 15, error := some "auth failed" }
    15 "auth failed" rfl rfl rfl
